import Mathlib

/-!
Verification of the probe-and-aggregate report engine of `monitoring.py`
(class `LinuxAutomation`). The Python functions are shallowly embedded as
Lean definitions; external-world effects (subprocess spawns, file reads)
are passed in explicitly as outcome values, mirroring exactly the branches
the Python code takes on each outcome.
-/

/-- Model of Python `str.strip()` on a character list: whitespace removed
from both ends. -/
def pyStripChars (l : List Char) : List Char :=
  ((l.dropWhile Char.isWhitespace).reverse.dropWhile Char.isWhitespace).reverse

/-- Model of Python `str.strip()` on strings. -/
def pyStrip (s : String) : String :=
  String.mk (pyStripChars s.data)

/-- Model of Python `str.split('\n')` on a character list: like Python's
`split`, it always yields at least one (possibly empty) piece. -/
def splitNl : List Char → List (List Char)
  | [] => [[]]
  | c :: rest =>
      if c = '\n' then [] :: splitNl rest
      else
        match splitNl rest with
        | [] => [[c]]
        | g :: gs => (c :: g) :: gs

/-- Model of Python `str.split('\n')` on strings. -/
def splitLinesPy (s : String) : List String :=
  (splitNl s.data).map String.mk

theorem splitNl_ne_nil (l : List Char) : splitNl l ≠ [] := by
  induction l with
  | nil => simp [splitNl]
  | cons c rest ih =>
      simp only [splitNl]
      split
      · simp
      · cases h : splitNl rest with
        | nil => simp
        | cons g gs => simp

theorem splitLinesPy_ne_nil (s : String) : splitLinesPy s ≠ [] := by
  simp [splitLinesPy, splitNl_ne_nil]

/-! ## Command runner (`run_command`, monitoring.py lines 702-727)

The outcome of `subprocess.run(command, shell=True, capture_output=True,
text=True, timeout=timeout)` is one of: completion with an exit code and
captured stdout/stderr, a `TimeoutExpired` exception, or some other
exception while spawning/executing. -/

inductive CmdOutcome where
  | completed (exitCode : Nat) (stdout stderr : String)
  | timedOut
  | execError
deriving DecidableEq, Repr

/-- Embedding of `run_command`: on exit code 0 it returns `result.stdout`;
on a non-zero exit code it logs and returns `None`; on `TimeoutExpired`
or any other exception it logs and returns `None`. -/
def run_command (outcome : CmdOutcome) : Option String :=
  match outcome with
  | .completed exitCode stdout _ =>
      if exitCode = 0 then some stdout else none
  | .timedOut => none
  | .execError => none

/-! ## Serial-number lookup inside `system_info` (monitoring.py lines 65-81)

Each `subprocess.run` spawn either raises (modelled `Except.error ()`, e.g.
the binary is missing) or completes with an exit code and stdout. The
fallback `dmidecode` spawn is attempted only inside the `except` handler
of the first spawn. -/

abbrev SpawnOutcome := Except Unit (Nat × String)

/-- Embedding of the serial-number lookup of `system_info`. Returns the
resulting `serial_number` string together with a flag recording whether
the `dmidecode` fallback invocation was attempted. -/
def serialNumberLookup (sysfsCat : SpawnOutcome) (dmidecode : SpawnOutcome) :
    String × Bool :=
  match sysfsCat with
  | .ok (rc, out) =>
      if rc = 0 then (pyStrip out, false) else ("Unknown", false)
  | .error _ =>
      match dmidecode with
      | .ok (rc, out) =>
          if rc = 0 then (pyStrip out, true) else ("Unknown", true)
      | .error _ => ("Unknown", true)

/-! ## Disk usage (`disk_usage_check`, monitoring.py lines 151-186) -/

structure DiskStats where
  total_gb : Nat
  used_gb : Nat
  free_gb : Nat
  usage_percent : ℚ
deriving DecidableEq, Repr

/-- Embedding of the per-path body of `disk_usage_check`: GB figures are
integer-truncated (`// (1024**3)`), the percentage is computed from the
raw byte counts. -/
def diskEntry (total used free : Nat) : DiskStats :=
  { total_gb := total / 1024 ^ 3
    used_gb := used / 1024 ^ 3
    free_gb := free / 1024 ^ 3
    usage_percent := ((used : ℚ) / (total : ℚ)) * 100 }

/-- Embedding of `disk_usage_check` over the paths that exist: each path
comes with the `(total, used, free)` byte counts `shutil.disk_usage`
reported. A path whose computation raises (division by zero when
`total = 0`) is logged and skipped, producing no entry. -/
def disk_usage_check (inputs : List (String × Nat × Nat × Nat)) :
    List (String × DiskStats) :=
  inputs.foldr
    (fun (p : String × Nat × Nat × Nat) acc =>
      if p.2.1 = 0 then acc
      else (p.1, diskEntry p.2.1 p.2.2.1 p.2.2.2) :: acc) []

/-! ## Memory (`memory_check`, monitoring.py lines 188-224) -/

structure MemStats where
  total_gb : ℚ
  used_gb : ℚ
  available_gb : ℚ
  usage_percent : ℚ
deriving DecidableEq, Repr

/-- Embedding of the arithmetic of `memory_check` given the parsed
`MemTotal` and `MemAvailable` values (in kB): `used_kb` is total minus
available, GB figures divide by `1024*1024`, and the percentage is
`used_kb / total_kb * 100`. When `total_kb = 0` the percentage computation
raises `ZeroDivisionError`, the handler logs and returns `None`. -/
def memory_check (total_kb available_kb : Nat) : Option MemStats :=
  if total_kb = 0 then none
  else
    let used_kb : ℚ := (total_kb : ℚ) - (available_kb : ℚ)
    some
      { total_gb := (total_kb : ℚ) / (1024 * 1024)
        used_gb := used_kb / (1024 * 1024)
        available_gb := (available_kb : ℚ) / (1024 * 1024)
        usage_percent := used_kb / (total_kb : ℚ) * 100 }

/-- `memory_check` lifted over a parse outcome: a failure to open or parse
`/proc/meminfo` (modelled `none`) makes the whole probe return `None`. -/
def memory_probe (parsed : Option (Nat × Nat)) : Option MemStats :=
  parsed.bind fun p => memory_check p.1 p.2

/-! ## Process monitor (`process_monitor`, monitoring.py lines 226-261) -/

structure ProcStatus where
  running : Bool
  pids : List String
  count : Nat
deriving DecidableEq, Repr

/-- Embedding of the per-name body of `process_monitor`, given the outcome
of `pgrep -f name`: on exit code 0 the stripped stdout is split on
newlines into the PID list; otherwise the process is reported not
running. -/
def processEntry (returncode : Nat) (stdout : String) : ProcStatus :=
  if returncode = 0 then
    let pids := splitLinesPy (pyStrip stdout)
    { running := true, pids := pids, count := pids.length }
  else
    { running := false, pids := [], count := 0 }

/-- Embedding of `process_monitor`: one entry per watched name whose
`pgrep` spawn did not raise. -/
def process_monitor (inputs : List (String × Nat × String)) :
    List (String × ProcStatus) :=
  inputs.map fun p => (p.1, processEntry p.2.1 p.2.2)

/-! ## Users (`list_users`, monitoring.py lines 384-436) -/

/-- The fixed allow-list of interactive login shells. -/
def login_shells : List String :=
  ["/bin/bash", "/bin/sh", "/bin/zsh", "/bin/fish", "/usr/bin/bash"]

structure UserInfo where
  username : String
  uid : Int
  gid : Int
  description : String
  home_dir : String
  shell : String
  can_login : Bool
  home_exists : Bool
deriving DecidableEq, Repr

/-- Embedding of the per-record construction in `list_users`: `can_login`
is derived from membership of the shell in `login_shells`; `home_exists`
is the filesystem check's outcome, passed in. -/
def userFromPasswd (username : String) (uid gid : Int)
    (description home_dir shell : String) (homeExists : Bool) : UserInfo :=
  { username := username, uid := uid, gid := gid
    description := description, home_dir := home_dir, shell := shell
    can_login := decide (shell ∈ login_shells)
    home_exists := homeExists }

/-- `regular_users` filter (monitoring.py lines 418 and 634). -/
def regular_users (us : List UserInfo) : List UserInfo :=
  us.filter fun u => decide (1000 ≤ u.uid) && u.can_login

/-- `system_users` filter (monitoring.py lines 419 and 635). -/
def system_users (us : List UserInfo) : List UserInfo :=
  us.filter fun u => decide (u.uid < 1000)

/-- `service_users` filter (monitoring.py lines 420 and 636). -/
def service_users (us : List UserInfo) : List UserInfo :=
  us.filter fun u => decide (1000 ≤ u.uid) && !u.can_login

/-- The classification the spec derives from the three filters. -/
inductive UserClass where
  | system
  | regular
  | service
deriving DecidableEq, Repr

/-- Classification as a total function of `(uid, can_login)`. -/
def classifyUser (u : UserInfo) : UserClass :=
  if u.uid < 1000 then .system
  else if u.can_login then .regular
  else .service

/-! ## Critical file permissions (`check_file_permissions`,
monitoring.py lines 438-476)

For each path, the environment reports `none` when `os.path.exists` is
false, and otherwise the `st_mode` of the file together with a flag
telling whether the `pwd`/`grp` owner and group lookups succeed (when one
of them raises, the per-file `except` handler fires before the permission
checks run, so no finding is appended for that file). -/

def criticalFiles : List String :=
  ["/etc/passwd", "/etc/shadow", "/etc/sudoers", "/etc/ssh/sshd_config",
   "/etc/crontab"]

/-- Embedding of the finding-collection loop of `check_file_permissions`. -/
def check_file_permissions (stats : String → Option (Nat × Bool)) :
    List String → List String
  | [] => []
  | f :: rest =>
      (match stats f with
       | none => []
       | some (mode, ownerOk) =>
           if ownerOk then
             if f = "/etc/shadow" ∧ mode &&& 0o077 ≠ 0 then
               [f ++ " is readable by others"]
             else if f = "/etc/passwd" ∧ mode &&& 0o002 ≠ 0 then
               [f ++ " is writable by others"]
             else []
           else []) ++ check_file_permissions stats rest

/-! ## Aggregation (`generate_system_report`, monitoring.py lines 529-559) -/

structure SystemInfo where
  hostname : String
  full_hostname : String
  serial_number : String
  distribution : String
  kernel : String
  architecture : String
  current_user : String
  user_id : String
  group_id : String
  current_directory : String
  python_version : String
  system_uptime : String
  load_average : String
deriving DecidableEq, Repr

structure SecurityCheck where
  failed_logins : Nat
  permission_issues : List String
deriving DecidableEq, Repr

structure CleanupStats where
  old_logs : Nat
  temp_files : Nat
  package_cache : Nat
deriving DecidableEq, Repr

structure Report where
  timestamp : String
  system_info : SystemInfo
  disk_usage : List (String × DiskStats)
  memory_usage : Option MemStats
  network_interfaces : List (String × List String)
  process_status : List (String × ProcStatus)
  service_status : List (String × String)
  users : List UserInfo
  security_check : SecurityCheck
  cleanup_recommendations : CleanupStats
deriving DecidableEq, Repr

/-- The external-world inputs the probes observe during one invocation. -/
structure ProbeEnv where
  now : String
  sysinfo : SystemInfo
  diskInputs : List (String × Nat × Nat × Nat)
  memInput : Option (Nat × Nat)
  netIfs : List (String × List String)
  procInputs : List (String × Nat × String)
  svcStatus : List (String × String)
  usersInput : List UserInfo
  failedLogins : Nat
  permStats : String → Option (Nat × Bool)
  cleanup : CleanupStats

/-- Embedding of `generate_system_report`: the report dict literal,
with each value produced by the corresponding probe. -/
def generate_system_report (env : ProbeEnv) : Report :=
  { timestamp := env.now
    system_info := env.sysinfo
    disk_usage := disk_usage_check env.diskInputs
    memory_usage := memory_probe env.memInput
    network_interfaces := env.netIfs
    process_status := process_monitor env.procInputs
    service_status := env.svcStatus
    users := env.usersInput
    security_check :=
      { failed_logins := env.failedLogins
        permission_issues := check_file_permissions env.permStats criticalFiles }
    cleanup_recommendations := env.cleanup }

/-- A serialized top-level report value, as written to the JSON artifact. -/
inductive RVal where
  | str (s : String)
  | sysInfo (i : SystemInfo)
  | disk (d : List (String × DiskStats))
  | mem (m : Option MemStats)
  | net (n : List (String × List String))
  | procs (p : List (String × ProcStatus))
  | svcs (s : List (String × String))
  | users (u : List UserInfo)
  | security (s : SecurityCheck)
  | cleanup (c : CleanupStats)
deriving DecidableEq, Repr

/-- The key-value entries of the report dict, in the order of the literal
at monitoring.py lines 533-547. -/
def reportEntries (r : Report) : List (String × RVal) :=
  [("timestamp", .str r.timestamp),
   ("system_info", .sysInfo r.system_info),
   ("disk_usage", .disk r.disk_usage),
   ("memory_usage", .mem r.memory_usage),
   ("network_interfaces", .net r.network_interfaces),
   ("process_status", .procs r.process_status),
   ("service_status", .svcs r.service_status),
   ("users", .users r.users),
   ("security_check", .security r.security_check),
   ("cleanup_recommendations", .cleanup r.cleanup_recommendations)]

/-- The ten top-level field names of a report. -/
def reportKeys : List String :=
  ["timestamp", "system_info", "disk_usage", "memory_usage",
   "network_interfaces", "process_status", "service_status", "users",
   "security_check", "cleanup_recommendations"]

/-! ## Text renderer (`save_monitoring_report`, monitoring.py lines 561-700)

The renderer is modelled as the list of lines written to
`report_monitoring.txt`, in order; a `f.write` ending in `"\n\n"`
contributes its line followed by an empty line. -/

def bannerLine : String := String.mk (List.replicate 80 '=')

def sectionUnderline : String := String.mk (List.replicate 40 '-')

/-- Model of Python `str(bool)` as used in f-string interpolation. -/
def pyBoolStr (b : Bool) : String := if b then "True" else "False"

/-- Model of Python `f"{x:.1f}"` formatting of the ℚ-modelled float. -/
def fmt1 (q : ℚ) : String :=
  toString (round (q * 10) / 10 : ℤ) ++ "." ++
    toString ((round (q * 10) : ℤ).natAbs % 10)

/-- Model of Python `f"{x:.2f}"` formatting of the ℚ-modelled float. -/
def fmt2 (q : ℚ) : String :=
  toString (round (q * 100) / 100 : ℤ) ++ "." ++
    toString ((round (q * 100) : ℤ).natAbs % 100 / 10) ++
    toString ((round (q * 100) : ℤ).natAbs % 10)

def diskWarnLine : String := "  ⚠️  WARNING: High disk usage!"

def memWarnLine : String := "⚠️  WARNING: High memory usage!"

/-- Lines of the System Information section (monitoring.py lines 570-583). -/
def sysInfoSection (si : SystemInfo) : List String :=
  ["SYSTEM INFORMATION:", sectionUnderline,
   "Hostname: " ++ si.hostname,
   "Full Hostname: " ++ si.full_hostname,
   "Serial Number: " ++ si.serial_number,
   "Distribution: " ++ si.distribution,
   "Kernel: " ++ si.kernel,
   "Architecture: " ++ si.architecture,
   "Current User: " ++ si.current_user,
   "Python Version: " ++ si.python_version,
   "System Uptime: " ++ si.system_uptime,
   "Load Average: " ++ si.load_average,
   ""]

/-- Lines of the Memory Usage section (monitoring.py lines 585-596):
when the probe result is `None` (falsy), only the header, underline and
trailing blank line are written. -/
def memorySection (mem : Option MemStats) : List String :=
  ["MEMORY USAGE:", sectionUnderline] ++
    (match mem with
     | some m =>
         ["Total: " ++ (fmt2 m.total_gb ++ " GB"),
          "Used: " ++ (fmt2 m.used_gb ++ " GB"),
          "Available: " ++ (fmt2 m.available_gb ++ " GB"),
          "Usage: " ++ (fmt1 m.usage_percent ++ "%")] ++
           (if m.usage_percent > 85 then [memWarnLine] else [])
     | none => []) ++
    [""]

/-- Lines of one path's entry in the Disk Usage section
(monitoring.py lines 601-609). -/
def diskEntryLines (path : String) (d : DiskStats) : List String :=
  [path ++ ":",
   "  Total: " ++ (toString d.total_gb ++ " GB"),
   "  Used: " ++ (toString d.used_gb ++ " GB"),
   "  Free: " ++ (toString d.free_gb ++ " GB"),
   "  Usage: " ++ (fmt1 d.usage_percent ++ "%")] ++
    (if d.usage_percent > 80 then [diskWarnLine] else []) ++
    [""]

/-- Lines of the Disk Usage section (monitoring.py lines 598-609). -/
def diskSection (disks : List (String × DiskStats)) : List String :=
  ["DISK USAGE:", sectionUnderline] ++
    (disks.map fun p => diskEntryLines p.1 p.2).flatten

/-- Lines of the Process Status section (monitoring.py lines 611-620). -/
def processSection (procs : List (String × ProcStatus)) : List String :=
  ["PROCESS STATUS:", sectionUnderline] ++
    (procs.map fun p =>
      p.1 ++ ": " ++
        (if p.2.running then
          "Running (" ++ toString p.2.count ++ " instances) - PIDs: " ++
            String.intercalate ", " p.2.pids
         else "Not running")) ++
    [""]

/-- Lines of the Service Status section (monitoring.py lines 622-627). -/
def serviceSection (svcs : List (String × String)) : List String :=
  ["SERVICE STATUS:", sectionUnderline] ++
    (svcs.map fun p => p.1 ++ ": " ++ p.2) ++
    [""]

/-- Lines of the System Users section (monitoring.py lines 629-658). -/
def usersSection (users : List UserInfo) : List String :=
  ["SYSTEM USERS:", sectionUnderline] ++
    (if users.isEmpty then ["No user information available", ""]
     else
       ["Total users: " ++ toString users.length,
        "Regular users: " ++ toString (regular_users users).length,
        "System users: " ++ toString (system_users users).length,
        "Service users: " ++ toString (service_users users).length,
        ""] ++
         (if (regular_users users).isEmpty then []
          else
            ["Regular users with login access:"] ++
              ((regular_users users).map fun u =>
                ["  " ++ u.username ++ " (UID: " ++ toString u.uid ++
                   ", Home: " ++ u.home_dir ++ ")",
                 "    Shell: " ++ u.shell ++ ", Home exists: " ++
                   pyBoolStr u.home_exists]).flatten ++
              [""]) ++
         (if (service_users users).isEmpty then []
          else
            ["Service users (no login):"] ++
              (((service_users users).take 10).map fun u =>
                "  " ++ u.username ++ " (UID: " ++ toString u.uid ++
                  ", Shell: " ++ u.shell ++ ")") ++
              (if (service_users users).length > 10 then
                ["  ... and " ++ toString ((service_users users).length - 10)
                   ++ " more service users"]
               else []) ++
              [""]))

/-- Lines of the Security Check section (monitoring.py lines 660-672). -/
def securitySection (sec : SecurityCheck) : List String :=
  ["SECURITY CHECK:", sectionUnderline,
   "Failed login attempts: " ++ toString sec.failed_logins] ++
    (if sec.permission_issues.isEmpty then ["✅ No permission issues found"]
     else
       ["⚠️  SECURITY WARNINGS:"] ++
         sec.permission_issues.map fun i => "  - " ++ i) ++
    [""]

/-- Lines of the Cleanup Recommendations section
(monitoring.py lines 674-681). -/
def cleanupSection (c : CleanupStats) : List String :=
  ["CLEANUP RECOMMENDATIONS:", sectionUnderline,
   "Old log files: " ++ toString c.old_logs,
   "Old temp files: " ++ toString c.temp_files,
   "Package cache: " ++ toString c.package_cache,
   ""]

/-- Lines of the Network Interfaces section (monitoring.py lines 683-694). -/
def networkSection (nets : List (String × List String)) : List String :=
  ["NETWORK INTERFACES:", sectionUnderline] ++
    (if nets.isEmpty then ["No network interface information available"]
     else
       (nets.map fun p =>
         [p.1 ++ ":"] ++ p.2.map fun a => "  IP: " ++ a).flatten) ++
    [""]

/-- Embedding of `save_monitoring_report`: the complete sequence of lines
written to `report_monitoring.txt`. -/
def save_monitoring_report (ts : String) (r : Report) : List String :=
  [bannerLine, "SYSTEM MONITORING REPORT - " ++ ts, bannerLine, ""] ++
    sysInfoSection r.system_info ++
    memorySection r.memory_usage ++
    diskSection r.disk_usage ++
    processSection r.process_status ++
    serviceSection r.service_status ++
    usersSection r.users ++
    securitySection r.security_check ++
    cleanupSection r.cleanup_recommendations ++
    networkSection r.network_interfaces ++
    [bannerLine, "Report generation completed", bannerLine]

/-! ## Sample inputs used by witnesses -/

/-- A probe environment in which every probe input failed or is empty. -/
def emptyProbeEnv : ProbeEnv :=
  { now := "2024-01-01T00:00:00"
    sysinfo :=
      { hostname := "host", full_hostname := "host", serial_number := "Unknown"
        distribution := "Unknown Linux", kernel := "6.1.0", architecture := "x86_64"
        current_user := "unknown", user_id := "0", group_id := "0"
        current_directory := "/", python_version := "3.11.0"
        system_uptime := "Unknown", load_average := "Unknown" }
    diskInputs := []
    memInput := none
    netIfs := []
    procInputs := []
    svcStatus := []
    usersInput := []
    failedLogins := 0
    permStats := fun _ => none
    cleanup := { old_logs := 0, temp_files := 0, package_cache := 0 } }

/-- A root account record as parsed from `/etc/passwd`. -/
def sampleRootUser : UserInfo :=
  userFromPasswd "root" 0 0 "root" "/root" "/bin/bash" true

/-! ## Theorems -/

/-- C1: for every invocation, `generate_system_report` returns a report
whose serialized top-level entries carry exactly the ten field names, in
order; a failed memory probe contributes an explicit `null` value and an
empty disk probe an explicit empty mapping, never an absent field. -/
theorem generate_system_report_structurally_complete :
    (∀ env : ProbeEnv,
      (reportEntries (generate_system_report env)).map Prod.fst = reportKeys) ∧
    (∀ env : ProbeEnv, env.memInput = none →
      ("memory_usage", RVal.mem none) ∈
        reportEntries (generate_system_report env)) ∧
    (∀ env : ProbeEnv, env.diskInputs = [] →
      ("disk_usage", RVal.disk []) ∈
        reportEntries (generate_system_report env)) := by
  refine ⟨fun env => rfl, ?_, ?_⟩
  · intro env h
    simp [reportEntries, generate_system_report, memory_probe, h]
  · intro env h
    simp [reportEntries, generate_system_report, disk_usage_check, h]

theorem generate_system_report_structurally_complete_witness :
    (reportEntries (generate_system_report emptyProbeEnv)).map Prod.fst =
        reportKeys ∧
      ("memory_usage", RVal.mem none) ∈
        reportEntries (generate_system_report emptyProbeEnv) ∧
      ("disk_usage", RVal.disk []) ∈
        reportEntries (generate_system_report emptyProbeEnv) :=
  ⟨generate_system_report_structurally_complete.1 emptyProbeEnv,
   generate_system_report_structurally_complete.2.1 emptyProbeEnv rfl,
   generate_system_report_structurally_complete.2.2 emptyProbeEnv rfl⟩

/-- C2 counterexample: `run_command` maps a non-zero exit, a different
non-zero exit with different stderr, and a timeout all to the same `None`,
so neither the exit code nor stderr is recoverable and a timeout is not
distinguishable from a non-zero exit. -/
theorem run_command_counterexample :
    run_command (.completed 1 "out-a" "err-a") = none ∧
    run_command (.completed 2 "out-b" "err-b") = none ∧
    run_command .timedOut = none ∧
    run_command (.completed 1 "out-a" "err-a") = run_command .timedOut :=
  ⟨rfl, rfl, rfl, rfl⟩

/-- C2 (amended): `run_command` returns the captured stdout exactly when
the command completed with exit code 0, and `None` on a non-zero exit, a
timeout, or an execution error alike. -/
theorem run_command_stdout_on_zero_exit_else_none :
    ∀ o : CmdOutcome, run_command o =
      match o with
      | .completed 0 stdout _ => some stdout
      | _ => none := by
  intro o
  cases o with
  | completed rc out err => cases rc <;> simp [run_command]
  | timedOut => rfl
  | execError => rfl

/-- C3: the three user classes are a partition of any parsed user list —
the counts sum to the total, and membership in each filtered class
coincides with the classification derived from `(uid, can_login)`, where
`can_login` is exactly shell-membership in the allow-list. -/
theorem user_classification_partition :
    (∀ us : List UserInfo,
      (system_users us).length + (regular_users us).length +
        (service_users us).length = us.length) ∧
    (∀ us : List UserInfo, ∀ u : UserInfo, u ∈ us →
      (u ∈ system_users us ↔ classifyUser u = .system) ∧
      (u ∈ regular_users us ↔ classifyUser u = .regular) ∧
      (u ∈ service_users us ↔ classifyUser u = .service)) ∧
    (∀ (username : String) (uid gid : Int)
        (description home_dir shell : String) (hx : Bool),
      (userFromPasswd username uid gid description home_dir shell hx).can_login
        = decide (shell ∈ login_shells)) := by
  refine ⟨?_, ?_, fun _ _ _ _ _ _ _ => rfl⟩
  · intro us
    induction us with
    | nil => rfl
    | cons u rest ih =>
        simp only [system_users, regular_users, service_users,
          List.filter_cons] at ih ⊢
        by_cases h1 : u.uid < 1000 <;> by_cases h2 : u.can_login = true <;>
          simp [h1, h2, not_le.mpr, not_lt.mp, List.length_cons] <;> omega
  · intro us u h
    unfold system_users regular_users service_users classifyUser
    by_cases h1 : u.uid < 1000 <;> by_cases h2 : u.can_login = true <;>
      simp [List.mem_filter, h, h1, h2, not_lt.mp, not_le.mpr]

theorem user_classification_partition_witness :
    (sampleRootUser ∈ system_users [sampleRootUser] ↔
        classifyUser sampleRootUser = .system) ∧
      (sampleRootUser ∈ regular_users [sampleRootUser] ↔
        classifyUser sampleRootUser = .regular) ∧
      (sampleRootUser ∈ service_users [sampleRootUser] ↔
        classifyUser sampleRootUser = .service) :=
  user_classification_partition.2.1 [sampleRootUser] sampleRootUser
    (List.mem_singleton.mpr rfl)

/-- C4: for any path with positive total bytes, `usage_percent` is
computed from the raw byte counts as `used/total*100`; it is not in
general the percentage recomputed from the truncated GB fields, as the
concrete 3 GiB / 1.5 GiB example shows. -/
theorem disk_usage_percent_from_raw_bytes :
    (∀ total used free : Nat, 0 < total →
      (diskEntry total used free).usage_percent =
        (used : ℚ) / (total : ℚ) * 100) ∧
    ((diskEntry (3 * 1024 ^ 3) (3 * 2 ^ 29) 0).usage_percent ≠
      ((diskEntry (3 * 1024 ^ 3) (3 * 2 ^ 29) 0).used_gb : ℚ) /
        ((diskEntry (3 * 1024 ^ 3) (3 * 2 ^ 29) 0).total_gb : ℚ) * 100) := by
  constructor
  · intro total used free _
    rfl
  · norm_num [diskEntry]

theorem disk_usage_percent_from_raw_bytes_witness :
    (diskEntry (2 ^ 30) (2 ^ 29) 0).usage_percent =
      ((2 ^ 29 : Nat) : ℚ) / ((2 ^ 30 : Nat) : ℚ) * 100 :=
  disk_usage_percent_from_raw_bytes.1 (2 ^ 30) (2 ^ 29) 0 (by norm_num)

/-- C5 counterexample: on MemTotal=16000000 kB, MemAvailable=4000000 kB
the probe reports `used_gb = 12000000/(1024*1024)`, which is below
12 GB — not in the 12.00–12.01 GB range the claim states. -/
theorem memory_check_example_counterexample :
    (memory_check 16000000 4000000).map MemStats.used_gb =
        some ((12000000 : ℚ) / 1048576) ∧
      (12000000 : ℚ) / 1048576 < 12 := by
  constructor
  · norm_num [memory_check]
  · norm_num

/-- C5 (amended): used memory is defined as total minus available; on
MemTotal=16000000 kB, MemAvailable=4000000 kB the probe reports
`used_gb = 12000000/(1024*1024)` ≈ 11.44 GB and `usage_percent` exactly
75. -/
theorem memory_check_used_total_minus_available :
    (∀ total_kb available_kb : Nat, 0 < total_kb →
      memory_check total_kb available_kb =
        some
          { total_gb := (total_kb : ℚ) / (1024 * 1024)
            used_gb := ((total_kb : ℚ) - (available_kb : ℚ)) / (1024 * 1024)
            available_gb := (available_kb : ℚ) / (1024 * 1024)
            usage_percent :=
              ((total_kb : ℚ) - (available_kb : ℚ)) / (total_kb : ℚ) * 100 }) ∧
    (memory_check 16000000 4000000).map
        (fun m => (m.used_gb, m.usage_percent)) =
      some ((12000000 : ℚ) / 1048576, 75) := by
  constructor
  · intro total_kb available_kb h
    simp [memory_check, Nat.pos_iff_ne_zero.mp h]
  · norm_num [memory_check]

theorem memory_check_used_total_minus_available_witness :
    0 < 16000000 ∧
      memory_check 16000000 4000000 =
        some
          { total_gb := ((16000000 : Nat) : ℚ) / (1024 * 1024)
            used_gb :=
              (((16000000 : Nat) : ℚ) - ((4000000 : Nat) : ℚ)) / (1024 * 1024)
            available_gb := ((4000000 : Nat) : ℚ) / (1024 * 1024)
            usage_percent :=
              (((16000000 : Nat) : ℚ) - ((4000000 : Nat) : ℚ)) /
                ((16000000 : Nat) : ℚ) * 100 } :=
  ⟨by norm_num,
   memory_check_used_total_minus_available.1 16000000 4000000 (by norm_num)⟩

/-- C6 counterexample: when the `cat` of the DMI sysfs path completes with
a non-zero exit code (the file is missing or unreadable) and `dmidecode`
would succeed, the probe still reports "Unknown" and never attempts the
`dmidecode` fallback. -/
theorem serial_lookup_counterexample :
    serialNumberLookup (Except.ok (1, "")) (Except.ok (0, "SER123")) =
        ("Unknown", false) ∧
      ("Unknown", false) ≠ ("SER123", true) :=
  ⟨rfl, by decide⟩

/-- C6 (amended): the `dmidecode` fallback is attempted exactly when
spawning the `cat` of the sysfs path itself raises (e.g. the binary is
missing); a spawned `cat` that exits non-zero leaves the serial "Unknown"
without any fallback, and when the spawn raises the serial takes
`dmidecode`'s stripped output on a zero exit. -/
theorem serial_lookup_fallback_only_on_spawn_error :
    (∀ (rc : Nat) (out : String) (dmi : SpawnOutcome), rc ≠ 0 →
      serialNumberLookup (.ok (rc, out)) dmi = ("Unknown", false)) ∧
    (∀ (out : String) (dmi : SpawnOutcome),
      serialNumberLookup (.ok (0, out)) dmi = (pyStrip out, false)) ∧
    (∀ out : String,
      serialNumberLookup (.error ()) (.ok (0, out)) = (pyStrip out, true)) ∧
    (∀ (rc : Nat) (out : String), rc ≠ 0 →
      serialNumberLookup (.error ()) (.ok (rc, out)) = ("Unknown", true)) ∧
    serialNumberLookup (.error ()) (.error ()) = ("Unknown", true) := by
  refine ⟨?_, fun out dmi => rfl, fun out => rfl, ?_, rfl⟩
  · intro rc out dmi h
    simp [serialNumberLookup, h]
  · intro rc out h
    simp [serialNumberLookup, h]

theorem serial_lookup_fallback_witness :
    (1 : Nat) ≠ 0 ∧
      serialNumberLookup (.ok (1, "x")) (.ok (0, "SER123")) =
        ("Unknown", false) :=
  ⟨by decide,
   serial_lookup_fallback_only_on_spawn_error.1 1 "x" (.ok (0, "SER123"))
     (by decide)⟩

/-- C7 counterexample: a shadow file with the common mode 0o100640
(regular file, group-readable, not world-readable) has no
world-readability bit set, yet the probe appends the finding. -/
theorem check_file_permissions_counterexample :
    check_file_permissions
        (fun p => if p = "/etc/shadow" then some (0o100640, true) else none)
        criticalFiles =
      ["/etc/shadow is readable by others"] ∧
    (0o100640 : Nat) &&& 0o004 = 0 := by
  constructor
  · decide
  · decide

/-- C7 (amended): the shadow finding is appended iff the mode has any
group or other permission bit set (`mode & 0o077 ≠ 0`, not only
world-readability), and the passwd finding iff the world-writability bit
is set (`mode & 0o002 ≠ 0`); no other mode bits on these files, and no
other critical file, produce a finding. -/
theorem check_file_permissions_policy :
    ∀ shadowMode passwdMode : Nat,
      check_file_permissions
          (fun p => if p = "/etc/shadow" then some (shadowMode, true)
                    else if p = "/etc/passwd" then some (passwdMode, true)
                    else none)
          criticalFiles =
        (if passwdMode &&& 0o002 ≠ 0 then
          ["/etc/passwd is writable by others"] else []) ++
        (if shadowMode &&& 0o077 ≠ 0 then
          ["/etc/shadow is readable by others"] else []) := by
  intro shadowMode passwdMode
  by_cases h1 : shadowMode &&& 0o077 = 0 <;>
    by_cases h2 : passwdMode &&& 0o002 = 0 <;>
      simp [check_file_permissions, criticalFiles, h1, h2]

theorem append_ne_of_third_char (p s w : String)
    (hl : 2 < p.data.length) (h : p.data[2]? ≠ w.data[2]?) : p ++ s ≠ w := by
  intro e
  apply h
  rw [← e, String.data_append, List.getElem?_append_left hl]

theorem diskEntryLines_warn_iff (path : String) (d : DiskStats)
    (hp : path ++ ":" ≠ diskWarnLine) :
    diskWarnLine ∈ diskEntryLines path d ↔ d.usage_percent > 80 := by
  have hT : "  Total: " ++ (toString d.total_gb ++ " GB") ≠ diskWarnLine :=
    append_ne_of_third_char _ _ _ (by decide) (by decide)
  have hU : "  Used: " ++ (toString d.used_gb ++ " GB") ≠ diskWarnLine :=
    append_ne_of_third_char _ _ _ (by decide) (by decide)
  have hF : "  Free: " ++ (toString d.free_gb ++ " GB") ≠ diskWarnLine :=
    append_ne_of_third_char _ _ _ (by decide) (by decide)
  have hP : "  Usage: " ++ (fmt1 d.usage_percent ++ "%") ≠ diskWarnLine :=
    append_ne_of_third_char _ _ _ (by decide) (by decide)
  have hE : diskWarnLine ≠ "" := by decide
  rw [diskEntryLines]
  by_cases h : d.usage_percent > 80
  · simp [h, List.mem_append]
  · simp [h, List.mem_append, List.mem_cons, Ne.symm hp, Ne.symm hT,
      Ne.symm hU, Ne.symm hF, Ne.symm hP, hE]

/-- C8: in the text renderer's Disk Usage section, the entry of each
default report path carries the warning marker iff its `usage_percent`
exceeds 80; in particular a path at 85% gets the marker and one at 50%
does not. -/
theorem disk_warning_iff_over_80 :
    (∀ path ∈ ["/", "/home", "/tmp", "/var"], ∀ d : DiskStats,
      diskWarnLine ∈ diskEntryLines path d ↔ d.usage_percent > 80) ∧
    diskWarnLine ∈
      diskEntryLines "/"
        (diskEntry (100 * 1024 ^ 3) (85 * 1024 ^ 3) (15 * 1024 ^ 3)) ∧
    diskWarnLine ∉
      diskEntryLines "/"
        (diskEntry (100 * 1024 ^ 3) (50 * 1024 ^ 3) (50 * 1024 ^ 3)) := by
  refine ⟨?_, ?_, ?_⟩
  · intro path hpath d
    exact diskEntryLines_warn_iff path d (by fin_cases hpath <;> decide)
  · exact (diskEntryLines_warn_iff _ _ (by decide)).mpr (by norm_num [diskEntry])
  · intro hmem
    have := (diskEntryLines_warn_iff _ _ (by decide)).mp hmem
    norm_num [diskEntry] at this

theorem disk_warning_iff_over_80_witness :
    diskWarnLine ∈
        diskEntryLines "/" (diskEntry (2 ^ 30) (2 ^ 30) 0) ↔
      (diskEntry (2 ^ 30) (2 ^ 30) 0).usage_percent > 80 :=
  disk_warning_iff_over_80.1 "/" (by simp) (diskEntry (2 ^ 30) (2 ^ 30) 0)

/-- C9: every entry the process monitor produces satisfies
`count = pids.length` and `running ↔ count > 0`; a `pgrep` that reports no
match (non-zero exit) yields exactly `{running := false, pids := [],
count := 0}`. -/
theorem process_entry_invariants :
    (∀ (rc : Nat) (out : String),
      (processEntry rc out).count = (processEntry rc out).pids.length ∧
      ((processEntry rc out).running ↔ 0 < (processEntry rc out).count)) ∧
    (∀ (rc : Nat) (out : String), rc ≠ 0 →
      processEntry rc out = { running := false, pids := [], count := 0 }) := by
  constructor
  · intro rc out
    by_cases h : rc = 0
    · subst h
      refine ⟨rfl, ?_⟩
      simp only [processEntry, if_pos rfl]
      simpa using List.length_pos.mpr (splitLinesPy_ne_nil (pyStrip out))
    · simp [processEntry, h]
  · intro rc out h
    simp [processEntry, h]

theorem process_entry_invariants_witness :
    (1 : Nat) ≠ 0 ∧
      processEntry 1 "" = { running := false, pids := [], count := 0 } :=
  ⟨by decide, process_entry_invariants.2 1 "" (by decide)⟩

/-- C10: when the memory probe's result is null, the text renderer still
produces the whole report — the Memory Usage section consists of exactly
its header, underline and trailing blank line (no value lines, no warning
marker), and every subsequent section header is still emitted. -/
theorem renderer_completes_on_null_memory :
    ∀ (ts : String) (r : Report), r.memory_usage = none →
      memorySection r.memory_usage =
          ["MEMORY USAGE:", sectionUnderline, ""] ∧
        memWarnLine ∉ memorySection r.memory_usage ∧
        "DISK USAGE:" ∈ save_monitoring_report ts r ∧
        "PROCESS STATUS:" ∈ save_monitoring_report ts r ∧
        "SERVICE STATUS:" ∈ save_monitoring_report ts r ∧
        "SYSTEM USERS:" ∈ save_monitoring_report ts r ∧
        "SECURITY CHECK:" ∈ save_monitoring_report ts r ∧
        "CLEANUP RECOMMENDATIONS:" ∈ save_monitoring_report ts r ∧
        "NETWORK INTERFACES:" ∈ save_monitoring_report ts r ∧
        "Report generation completed" ∈ save_monitoring_report ts r := by
  intro ts r h
  rw [h]
  refine ⟨rfl, by decide, ?_, ?_, ?_, ?_, ?_, ?_, ?_, ?_⟩ <;>
    simp [save_monitoring_report, diskSection, processSection,
      serviceSection, usersSection, securitySection, cleanupSection,
      networkSection, List.mem_append]

theorem renderer_completes_on_null_memory_witness :
    memorySection (generate_system_report emptyProbeEnv).memory_usage =
        ["MEMORY USAGE:", sectionUnderline, ""] ∧
      memWarnLine ∉
        memorySection (generate_system_report emptyProbeEnv).memory_usage ∧
      "DISK USAGE:" ∈
        save_monitoring_report "2024-01-01 00:00:00"
          (generate_system_report emptyProbeEnv) ∧
      "PROCESS STATUS:" ∈
        save_monitoring_report "2024-01-01 00:00:00"
          (generate_system_report emptyProbeEnv) ∧
      "SERVICE STATUS:" ∈
        save_monitoring_report "2024-01-01 00:00:00"
          (generate_system_report emptyProbeEnv) ∧
      "SYSTEM USERS:" ∈
        save_monitoring_report "2024-01-01 00:00:00"
          (generate_system_report emptyProbeEnv) ∧
      "SECURITY CHECK:" ∈
        save_monitoring_report "2024-01-01 00:00:00"
          (generate_system_report emptyProbeEnv) ∧
      "CLEANUP RECOMMENDATIONS:" ∈
        save_monitoring_report "2024-01-01 00:00:00"
          (generate_system_report emptyProbeEnv) ∧
      "NETWORK INTERFACES:" ∈
        save_monitoring_report "2024-01-01 00:00:00"
          (generate_system_report emptyProbeEnv) ∧
      "Report generation completed" ∈
        save_monitoring_report "2024-01-01 00:00:00"
          (generate_system_report emptyProbeEnv) :=
  renderer_completes_on_null_memory "2024-01-01 00:00:00"
    (generate_system_report emptyProbeEnv) rfl
